import Mathlib

/-!
# Verification of the rs3_analyzer analytical core

Shallow embedding of the price-analysis pipeline of `rs3_analyzer`
(`src/stats.rs`, `src/flips.rs`, `src/model.rs`) in Lean 4.

Modelling decisions:
* Rust `f64` values are modelled by `ℚ`. All arithmetic in the pipeline is
  field arithmetic on values originating from `i32` observations, so ℚ is an
  exact idealisation; decimal literals such as `0.80` denote their exact
  rational value. `f64::round` (round half away from zero) is `roundRat`,
  and the saturating-truncating `as i32` cast is `i32cast`.
* `f64::log10` is transcendental and has no exact rational counterpart; the
  scorer takes it as an explicit function parameter `log10 : ℚ → ℚ`, and all
  theorems about the scorer hold for every choice of that parameter.
* `ItemStats.std_dev` (an irrational square root, never read by the scorer)
  and `FlipResult.notes` (display-only formatted text, explicitly not to be
  parsed for semantics) are omitted from the embedded records.
* Rust `i32` fields are modelled by `Int`; the scorer's clamps and
  saturating additions are modelled explicitly (`i32cast`, `saturating_add`).
* `Vec::sort_by` with ascending `partial_cmp` (no NaN can arise from `i32`
  inputs) is modelled by a stable ascending sort, `sortRat`.
* `HashMap` grouping in `build_stats` preserves per-group insertion order;
  the iteration order over groups is unspecified in Rust, so the embedding
  fixes first-occurrence order. All per-group statements are order-independent.
-/

namespace RS3

/-- `i32::MAX`. -/
def i32max : Int := 2147483647

/-- `i32::MIN`. -/
def i32min : Int := -2147483648

/-- `f64::round`: round half away from zero. -/
def roundRat (x : ℚ) : Int :=
  if 0 ≤ x then Int.floor (x + 1/2) else Int.ceil (x - 1/2)

/-- Truncation toward zero, the integral part used by Rust float-to-int casts. -/
def truncRat (x : ℚ) : Int :=
  if 0 ≤ x then Int.floor x else Int.ceil x

/-- Rust `as i32` on an `f64`: truncate toward zero, saturating at the bounds. -/
def i32cast (x : ℚ) : Int :=
  max i32min (min i32max (truncRat x))

/-- `i32::saturating_add`. -/
def saturating_add (a b : Int) : Int :=
  max i32min (min i32max (a + b))

/-- Stable ascending sort of a price vector
(`sort_by(|a, b| a.partial_cmp(b).unwrap())`). -/
def sortRat (l : List ℚ) : List ℚ :=
  l.insertionSort (· ≤ ·)

/-- `model::ItemSnapshot`: one raw (item, date, price, volume) observation. -/
structure ItemSnapshot where
  item_id : Int
  name : String
  ge_limit : Int
  record_date : String
  price : Int
  volume : Int
deriving DecidableEq

/-- `model::ItemStats` (the spec's `ItemStatistics`); `std_dev` omitted, see
the header. -/
structure ItemStats where
  item_id : Int
  name : String
  current_price : ℚ
  prev_price : ℚ
  avg_volume : ℚ
  q10 : ℚ
  q50 : ℚ
  q90 : ℚ
  data_points : ℕ
  ge_limit : Int
  current_volume : ℚ
  prices : List ℚ
  price_trend : ℚ
  filtered_prices : List ℚ
  outliers_removed : ℕ
  recent_prices : List ℚ
  recent_prices_chrono : List ℚ
deriving DecidableEq

/-- `model::FlipResult` (the spec's `FlipRecommendation`); `notes` omitted,
see the header. -/
structure FlipResult where
  score : Int
  tier : String
  buy : Int
  sell : Int
  qty : Int
  profit : Int
  roi : ℚ
  avg_volume : ℚ
deriving DecidableEq

/-- `FlipResult::empty()`: the "insufficient data" sentinel. -/
def FlipResult.empty : FlipResult :=
  { score := 0, tier := "NONE", buy := 0, sell := 0, qty := 0, profit := 0,
    roi := 0, avg_volume := 0 }

namespace stats

/-- `stats::quantile`: nearest-rank percentile on an ascending-sorted
sequence, 0 on the empty sequence. The Rust code indexes the vector
directly; within the program `q ∈ [0,1]` keeps the index in range, so the
`getD` default is never reached there. -/
def quantile (sorted : List ℚ) (q : ℚ) : ℚ :=
  if sorted.isEmpty then 0
  else sorted.getD (roundRat (((sorted.length - 1 : ℕ) : ℚ) * q)).toNat 0

/-- `stats::remove_outliers`: IQR outlier filter with the under-10 guard and
the keep-at-least-70% revert (the Rust threshold `original_len * 7 / 10` is
integer division, i.e. a floor). -/
def remove_outliers (prices : List ℚ) : List ℚ × ℕ :=
  if prices.length < 10 then (prices, 0)
  else
    let q1 := quantile prices 0.25
    let q3 := quantile prices 0.75
    let iqr := q3 - q1
    let lower_bound := q1 - (1.5 * iqr)
    let upper_bound := q3 + (1.5 * iqr)
    let original_len := prices.length
    let filtered := prices.filter (fun p => decide (lower_bound ≤ p) && decide (p ≤ upper_bound))
    let removed := original_len - filtered.length
    if filtered.length < original_len * 7 / 10 then (prices, 0)
    else (filtered, removed)

/-- `stats::calculate_trend`: least-squares slope of price against 0-based
index. The Rust loop accumulates numerator and denominator in one pass; the
two folds here accumulate the same two values. -/
def calculate_trend (prices : List ℚ) : ℚ :=
  let n : ℚ := prices.length
  if n < 2 then 0
  else
    let x_mean := (n - 1) / 2
    let y_mean := prices.sum / n
    let numerator :=
      prices.enum.foldl (fun acc p => acc + ((p.1 : ℚ) - x_mean) * (p.2 - y_mean)) 0
    let denominator :=
      prices.enum.foldl (fun acc p => acc + ((p.1 : ℚ) - x_mean) * ((p.1 : ℚ) - x_mean)) 0
    if denominator ≠ 0 then numerator / denominator else 0

/-- Placeholder record used to model Rust's panicking accesses
(`records.last().unwrap()`, `records[len-2]`); every call site is guarded so
the placeholder is never read. -/
def defaultSnapshot : ItemSnapshot :=
  { item_id := 0, name := "", ge_limit := 0, record_date := "", price := 0, volume := 0 }

/-- The per-group body of `stats::build_stats` (the loop over
`for (id, records) in map`). `records` is one item's observations in the
order they arrived, which the loader guarantees is chronological
(`ORDER BY h.record_date`). -/
def build_stats_group (id : Int) (records : List ItemSnapshot) : ItemStats :=
  let prices0 : List ℚ := records.map (fun x => (x.price : ℚ))
  let volumes : List ℚ := records.map (fun x => (x.volume : ℚ))
  let recent_cutoff := if records.length ≥ 14 then records.length - 14 else 0
  let recent_prices_chrono : List ℚ := (records.drop recent_cutoff).map (fun x => (x.price : ℚ))
  let recent_prices := sortRat recent_prices_chrono
  let prices := sortRat prices0
  let current := records.getLastD defaultSnapshot
  let prev : ℚ :=
    if records.length > 1 then ((records.getD (records.length - 2) defaultSnapshot).price : ℚ)
    else (current.price : ℚ)
  let fr := remove_outliers prices
  let price_trend :=
    if fr.1.length ≥ 3 then calculate_trend fr.1
    else if prices.length ≥ 3 then calculate_trend prices
    else 0
  { item_id := id
    name := current.name
    current_price := prices.getLastD 0
    prev_price := prev
    avg_volume := volumes.sum / (volumes.length : ℚ)
    q10 := quantile prices 0.10
    q50 := quantile prices 0.50
    q90 := quantile prices 0.90
    data_points := prices.length
    ge_limit := current.ge_limit
    current_volume := (current.volume : ℚ)
    prices := prices
    price_trend := price_trend
    filtered_prices := fr.1
    outliers_removed := fr.2
    recent_prices := recent_prices
    recent_prices_chrono := recent_prices_chrono }

/-- One step of the `HashMap::entry(..).or_default().push(..)` grouping:
append the snapshot to its item's group, keeping per-group insertion order. -/
def upsert (acc : List (Int × List ItemSnapshot)) (snap : ItemSnapshot) :
    List (Int × List ItemSnapshot) :=
  match acc with
  | [] => [(snap.item_id, [snap])]
  | (k, v) :: rest =>
    if k = snap.item_id then (k, v ++ [snap]) :: rest
    else (k, v) :: upsert rest snap

/-- The grouping pass of `stats::build_stats`. -/
def group_by_item (data : List ItemSnapshot) : List (Int × List ItemSnapshot) :=
  data.foldl upsert []

/-- `stats::build_stats`: group by item, then build one `ItemStats` per group. -/
def build_stats (data : List ItemSnapshot) : List ItemStats :=
  (group_by_item data).map (fun g => build_stats_group g.1 g.2)

end stats

namespace flips

/-- `flips::quantile`: a second, textually identical copy of the nearest-rank
percentile function living in `flips.rs`. -/
def quantile (v : List ℚ) (q : ℚ) : ℚ :=
  if v.isEmpty then 0
  else v.getD (roundRat (((v.length - 1 : ℕ) : ℚ) * q)).toNat 0

/-! The local bindings of `flips::analyze` (lines 10–162 of `flips.rs`), one
definition per Rust `let`, in source order. `analyze` itself composes them
exactly as the source does. -/

/-- `analyze`: `overall_median`. -/
def overall_median (s : ItemStats) : ℚ := quantile s.prices 0.50

/-- `analyze`: `overall_q75`. -/
def overall_q75 (s : ItemStats) : ℚ := quantile s.prices 0.75

/-- `analyze`: `recent_median`. -/
def recent_median (s : ItemStats) : ℚ :=
  if !s.recent_prices.isEmpty then quantile s.recent_prices 0.50
  else overall_median s

/-- `analyze`: `price_crashed`. -/
def price_crashed (s : ItemStats) : Bool :=
  decide (recent_median s < overall_median s * 0.80) ||
    decide (recent_median s < overall_q75 s * 0.65)

/-- `analyze`: `price_spiked`. -/
def price_spiked (s : ItemStats) : Bool :=
  decide (recent_median s > overall_median s * 1.25)

/-- `analyze`: `recent_avg_all`. -/
def recent_avg_all (s : ItemStats) : ℚ :=
  if !s.recent_prices_chrono.isEmpty then
    s.recent_prices_chrono.sum / (s.recent_prices_chrono.length : ℚ)
  else recent_median s

/-- `analyze`: `post_spike_crash`. -/
def post_spike_crash (s : ItemStats) : Bool :=
  decide (recent_avg_all s < overall_q75 s * 0.82)

/-- `analyze`: `recent_downtrend`. -/
def recent_downtrend (s : ItemStats) : Bool :=
  if s.recent_prices_chrono.length ≥ 6 then
    let mid := s.recent_prices_chrono.length / 2
    let first_half_avg :=
      (s.recent_prices_chrono.take mid).sum / (mid : ℚ)
    let second_half_avg :=
      (s.recent_prices_chrono.drop mid).sum / ((s.recent_prices_chrono.length - mid : ℕ) : ℚ)
    decide (second_half_avg < first_half_avg * 0.90)
  else false

/-- `analyze`: `recent_trend_crash`. -/
def recent_trend_crash (s : ItemStats) : Bool :=
  post_spike_crash s || recent_downtrend s

/-- `analyze`: `use_recent`. -/
def use_recent (s : ItemStats) : Bool :=
  (price_crashed s || price_spiked s) && decide (s.recent_prices.length ≥ 10)

/-- `analyze`: `use_filtered`. -/
def use_filtered (s : ItemStats) : Bool :=
  !use_recent s && !s.filtered_prices.isEmpty && decide (s.outliers_removed > 0)

/-- `analyze`: `analysis_prices`, the chosen working series. -/
def analysis_prices (s : ItemStats) : List ℚ :=
  if use_recent s then s.recent_prices
  else if use_filtered s then s.filtered_prices
  else s.prices

/-- `analyze`: the working series after `prices.sort_by(..)`. -/
def sorted_prices (s : ItemStats) : List ℚ := sortRat (analysis_prices s)

/-- `analyze`: `buy` (`q15.round() as i32` in the recent window, else
`q10.round() as i32`). -/
def buy (s : ItemStats) : Int :=
  if use_recent s then i32cast ((roundRat (quantile (sorted_prices s) 0.15) : ℚ))
  else i32cast ((roundRat (quantile (sorted_prices s) 0.10) : ℚ))

/-- `analyze`: `sell`. -/
def sell (s : ItemStats) : Int :=
  if use_recent s then i32cast ((roundRat (quantile (sorted_prices s) 0.85) : ℚ))
  else i32cast ((roundRat (quantile (sorted_prices s) 0.90) : ℚ))

/-- `analyze`: `price_range` (`q90 - q10` of the working series). -/
def price_range (s : ItemStats) : ℚ :=
  quantile (sorted_prices s) 0.90 - quantile (sorted_prices s) 0.10

/-- `analyze`: `volatility`. -/
def volatility (s : ItemStats) : ℚ :=
  if quantile (sorted_prices s) 0.50 > 0 then
    (price_range s / quantile (sorted_prices s) 0.50) * 100
  else 0

/-- `analyze`: `gross`. -/
def gross (s : ItemStats) : ℚ := ((sell s - buy s : Int) : ℚ)

/-- `analyze`: `tax_loss`. -/
def tax_loss (s : ItemStats) (tax : ℚ) : ℚ := (sell s : ℚ) * tax

/-- `analyze`: `net`. -/
def net (s : ItemStats) (tax : ℚ) : ℚ := gross s - tax_loss s tax

/-- `analyze`: `roi`. -/
def roi (s : ItemStats) (tax : ℚ) : ℚ :=
  if buy s > 0 then (net s tax / (buy s : ℚ)) * 100 else 0

/-- `analyze`: `tier`, the first-match-wins classification chain. -/
def tier (s : ItemStats) (tax : ℚ) : String :=
  if net s tax < 0 then "CRASH"
  else if roi s tax > 35 ∨ net s tax > 5000000 then "DIAMOND"
  else if roi s tax > 20 ∨ net s tax > 1000000 then "GOLD"
  else if roi s tax > 8 ∨ net s tax > 200000 then "GREEN"
  else "NORMAL"

/-- `analyze`: `roi_score` (`(roi * 2.0).max(i32::MIN as f64).min(i32::MAX as f64) as i32`). -/
def roi_score (s : ItemStats) (tax : ℚ) : Int :=
  i32cast (min (max (roi s tax * 2) (i32min : ℚ)) (i32max : ℚ))

/-- `analyze`: `volume_score`; `log10` models `f64::log10`, see the header. -/
def volume_score (log10 : ℚ → ℚ) (s : ItemStats) : Int :=
  if s.avg_volume > 0 then
    i32cast (min (max (log10 s.avg_volume * 15) 0) 100)
  else 0

/-- `analyze`: `profit_score`. -/
def profit_score (s : ItemStats) (tax : ℚ) : Int :=
  if net s tax > 0 then i32cast (min (net s tax / 100000) 50)
  else i32cast (max (net s tax / 100000) (-50))

/-- `analyze`: `volatility_score`. -/
def volatility_score (s : ItemStats) : Int :=
  i32cast (min (volatility s) 100 / 2)

/-- `analyze`: `reliability_score`. -/
def reliability_score (s : ItemStats) : Int :=
  i32cast (min ((s.data_points : ℚ) / 5) 10)

/-- `analyze`: `spread_penalty`. -/
def spread_penalty (s : ItemStats) : Int :=
  if price_range s < (buy s : ℚ) * 0.02 then -20 else 0

/-- `analyze`: `trend_score`. -/
def trend_score (s : ItemStats) : Int :=
  if s.price_trend > 0 then i32cast (min s.price_trend 50 / 2)
  else i32cast (max s.price_trend (-50) / 2)

/-- `analyze`: `outlier_penalty`. -/
def outlier_penalty (s : ItemStats) : Int :=
  if s.outliers_removed > s.data_points / 5 then -30
  else if s.outliers_removed > 0 then -10
  else 0

/-- `analyze`: `crash_penalty`. -/
def crash_penalty (s : ItemStats) : Int :=
  if recent_trend_crash s then -80
  else if price_crashed s then -50
  else if price_spiked s then -30
  else 0

/-- `analyze`: `score`, the chain of `saturating_add`s. -/
def score (log10 : ℚ → ℚ) (s : ItemStats) (tax : ℚ) : Int :=
  saturating_add
    (saturating_add
      (saturating_add
        (saturating_add
          (saturating_add
            (saturating_add
              (saturating_add
                (saturating_add (roi_score s tax) (volume_score log10 s))
                (profit_score s tax))
              (volatility_score s))
            (reliability_score s))
          (spread_penalty s))
        (trend_score s))
      (outlier_penalty s))
    (crash_penalty s)

/-- `flips::analyze`: the empty-input sentinel guard, then the fully computed
recommendation (`qty` is always 1 on that path; `profit` is
`net.round() as i32`). -/
def analyze (log10 : ℚ → ℚ) (s : ItemStats) (tax : ℚ) : FlipResult :=
  if s.prices.isEmpty then FlipResult.empty
  else
    { score := score log10 s tax
      tier := tier s tax
      buy := buy s
      sell := sell s
      qty := 1
      profit := i32cast ((roundRat (net s tax) : ℚ))
      roi := roi s tax
      avg_volume := s.avg_volume }

end flips

/-! ## Helper lemmas -/

theorem roundRat_nonneg {x : ℚ} (hx : 0 ≤ x) : 0 ≤ roundRat x := by
  unfold roundRat
  rw [if_pos hx]
  have h : ((0:ℤ):ℚ) ≤ x + 1/2 := by push_cast; linarith
  exact Int.le_floor.mpr h

theorem roundRat_le_natCast {x : ℚ} {m : ℕ} (hx : 0 ≤ x) (h : x ≤ (m:ℚ)) :
    roundRat x ≤ (m:ℤ) := by
  unfold roundRat
  rw [if_pos hx]
  have h2 : x + 1/2 < (((m:ℤ) + 1 : ℤ) : ℚ) := by push_cast; linarith
  have h3 := Int.floor_lt.mpr h2
  omega

theorem quantile_eq_getElem {v : List ℚ} {q : ℚ} (hv : v ≠ [])
    (hidx : (roundRat (((v.length - 1 : ℕ) : ℚ) * q)).toNat < v.length) :
    stats.quantile v q = v[(roundRat (((v.length - 1 : ℕ) : ℚ) * q)).toNat] := by
  rw [stats.quantile, if_neg (by simp [hv])]
  exact List.getD_eq_getElem v 0 hidx

/-- C5: the nearest-rank `percentile` used by both components: the two
copies (`stats::quantile` and `flips::quantile`) agree on every input;
the empty sequence yields 0 for every `q`; on a non-empty sequence with
`q ∈ [0,1]` the result is the element at index `round((n-1)·q)` (the index
is in bounds); and on `[10,20,30,40,50]` the values at `q = 0.5, 0.0, 1.0`
are `30, 10, 50`. -/
theorem C5_percentile_function :
    (∀ (v : List ℚ) (q : ℚ), stats.quantile v q = flips.quantile v q)
    ∧ (∀ q : ℚ, stats.quantile [] q = 0)
    ∧ (∀ (v : List ℚ) (q : ℚ), v ≠ [] → 0 ≤ q → q ≤ 1 →
        v[(roundRat (((v.length - 1 : ℕ) : ℚ) * q)).toNat]? = some (stats.quantile v q))
    ∧ stats.quantile [10, 20, 30, 40, 50] (1/2) = 30
    ∧ stats.quantile [10, 20, 30, 40, 50] 0 = 10
    ∧ stats.quantile [10, 20, 30, 40, 50] 1 = 50 := by
  refine ⟨fun v q => rfl, fun q => rfl, ?_, ?_, ?_, ?_⟩
  · intro v q hv h0 h1
    have hn : 1 ≤ v.length := List.length_pos.mpr hv
    have hx0 : 0 ≤ ((v.length - 1 : ℕ) : ℚ) * q := mul_nonneg (Nat.cast_nonneg _) h0
    have hxle : ((v.length - 1 : ℕ) : ℚ) * q ≤ ((v.length - 1 : ℕ) : ℚ) :=
      mul_le_of_le_one_right (Nat.cast_nonneg _) h1
    have hr0 := roundRat_nonneg hx0
    have hrle := roundRat_le_natCast hx0 hxle
    have hidx : (roundRat (((v.length - 1 : ℕ) : ℚ) * q)).toNat < v.length := by omega
    rw [List.getElem?_eq_getElem hidx, quantile_eq_getElem hv hidx]
  · norm_num [stats.quantile, roundRat]
    simp
  · norm_num [stats.quantile, roundRat]
  · norm_num [stats.quantile, roundRat]
    simp

/-- Witness for C5: the in-bounds clause instantiated on `[10,20,30,40,50]`
with `q = 1/2`. -/
theorem C5_percentile_function_witness :
    ([10, 20, 30, 40, 50] : List ℚ) ≠ [] ∧
    (0:ℚ) ≤ 1/2 ∧ (1:ℚ)/2 ≤ 1 ∧
    ([10, 20, 30, 40, 50] :
      List ℚ)[(roundRat ((([10, 20, 30, 40, 50].length - 1 : ℕ) : ℚ) * (1/2))).toNat]?
      = some (stats.quantile [10, 20, 30, 40, 50] (1/2)) :=
  ⟨by simp, by norm_num, by norm_num,
    C5_percentile_function.2.2.1 [10, 20, 30, 40, 50] (1/2) (by simp) (by norm_num) (by norm_num)⟩

theorem analyze_of_ne_nil (log10 : ℚ → ℚ) (s : ItemStats) (tax : ℚ) (h : s.prices ≠ []) :
    flips.analyze log10 s tax =
      { score := flips.score log10 s tax, tier := flips.tier s tax, buy := flips.buy s,
        sell := flips.sell s, qty := 1, profit := i32cast ((roundRat (flips.net s tax) : ℚ)),
        roi := flips.roi s tax, avg_volume := s.avg_volume } := by
  rw [flips.analyze, if_neg (by simp [h])]

theorem analyze_tier_of_ne_nil (log10 : ℚ → ℚ) (s : ItemStats) (tax : ℚ) (h : s.prices ≠ []) :
    (flips.analyze log10 s tax).tier = flips.tier s tax := by
  rw [analyze_of_ne_nil log10 s tax h]

theorem analyze_qty_of_ne_nil (log10 : ℚ → ℚ) (s : ItemStats) (tax : ℚ) (h : s.prices ≠ []) :
    (flips.analyze log10 s tax).qty = 1 := by
  rw [analyze_of_ne_nil log10 s tax h]

theorem analyze_buy_of_ne_nil (log10 : ℚ → ℚ) (s : ItemStats) (tax : ℚ) (h : s.prices ≠ []) :
    (flips.analyze log10 s tax).buy = flips.buy s := by
  rw [analyze_of_ne_nil log10 s tax h]

theorem analyze_sell_of_ne_nil (log10 : ℚ → ℚ) (s : ItemStats) (tax : ℚ) (h : s.prices ≠ []) :
    (flips.analyze log10 s tax).sell = flips.sell s := by
  rw [analyze_of_ne_nil log10 s tax h]

theorem analyze_score_of_ne_nil (log10 : ℚ → ℚ) (s : ItemStats) (tax : ℚ) (h : s.prices ≠ []) :
    (flips.analyze log10 s tax).score = flips.score log10 s tax := by
  rw [analyze_of_ne_nil log10 s tax h]

theorem tier_mem_five (s : ItemStats) (tax : ℚ) :
    flips.tier s tax ∈ ["CRASH", "NORMAL", "GREEN", "GOLD", "DIAMOND"] := by
  unfold flips.tier
  split_ifs <;> simp

/-- C6: `analyze` returns the empty sentinel exactly when `all_prices` is
empty; the sentinel is an ordinary return value of the total function (the
embedding is total, mirroring the Rust code's lack of any panic on this
path), and every non-empty input yields a fully computed recommendation,
never the sentinel. -/
theorem C6_empty_sentinel_iff (log10 : ℚ → ℚ) (s : ItemStats) (tax : ℚ) :
    flips.analyze log10 s tax = FlipResult.empty ↔ s.prices = [] := by
  constructor
  · intro h
    by_contra hne
    have hq := congrArg FlipResult.qty h
    rw [analyze_qty_of_ne_nil log10 s tax hne] at hq
    simp [FlipResult.empty] at hq
  · intro h
    rw [flips.analyze, if_pos (by simp [h])]

/-- C10: the empty sentinel carries tier "NONE" — outside the five
documented tiers — and zero score, buy, sell, profit and quantity; every
recommendation computed from non-empty `all_prices` has quantity 1 and a
tier among the five documented values, so the sentinel is recognisable by
its tier alone. -/
theorem C10_sentinel_distinguishable_by_tier :
    FlipResult.empty.tier = "NONE"
    ∧ "NONE" ∉ ["CRASH", "NORMAL", "GREEN", "GOLD", "DIAMOND"]
    ∧ FlipResult.empty.score = 0 ∧ FlipResult.empty.buy = 0 ∧ FlipResult.empty.sell = 0
    ∧ FlipResult.empty.profit = 0 ∧ FlipResult.empty.qty = 0
    ∧ (∀ (log10 : ℚ → ℚ) (s : ItemStats) (tax : ℚ), s.prices ≠ [] →
        (flips.analyze log10 s tax).qty = 1
        ∧ (flips.analyze log10 s tax).tier ∈ ["CRASH", "NORMAL", "GREEN", "GOLD", "DIAMOND"])
    ∧ (∀ (log10 : ℚ → ℚ) (s : ItemStats) (tax : ℚ),
        ((flips.analyze log10 s tax).tier = "NONE" ↔ s.prices = [])) := by
  refine ⟨rfl, by simp, rfl, rfl, rfl, rfl, rfl, ?_, ?_⟩
  · intro log10 s tax h
    exact ⟨analyze_qty_of_ne_nil log10 s tax h,
      (analyze_tier_of_ne_nil log10 s tax h) ▸ tier_mem_five s tax⟩
  · intro log10 s tax
    constructor
    · intro h
      by_contra hne
      have hmem := (analyze_tier_of_ne_nil log10 s tax hne) ▸ tier_mem_five s tax
      rw [h] at hmem
      simp at hmem
    · intro h
      rw [flips.analyze, if_pos (by simp [h])]
      rfl

/-- C3: on every non-empty input the tier of the recommendation is decided
by `net` and `roi` through the priority table, first match wins: negative
net ⇒ CRASH (regardless of everything else); else roi > 35 or
net > 5,000,000 ⇒ DIAMOND; else roi > 20 or net > 1,000,000 ⇒ GOLD; else
roi > 8 or net > 200,000 ⇒ GREEN; else NORMAL. -/
theorem C3_tier_priority_table (log10 : ℚ → ℚ) (s : ItemStats) (tax : ℚ)
    (h : s.prices ≠ []) :
    (flips.net s tax < 0 → (flips.analyze log10 s tax).tier = "CRASH")
    ∧ (0 ≤ flips.net s tax → (35 < flips.roi s tax ∨ 5000000 < flips.net s tax) →
        (flips.analyze log10 s tax).tier = "DIAMOND")
    ∧ (0 ≤ flips.net s tax → flips.roi s tax ≤ 35 → flips.net s tax ≤ 5000000 →
        (20 < flips.roi s tax ∨ 1000000 < flips.net s tax) →
        (flips.analyze log10 s tax).tier = "GOLD")
    ∧ (0 ≤ flips.net s tax → flips.roi s tax ≤ 20 → flips.net s tax ≤ 1000000 →
        (8 < flips.roi s tax ∨ 200000 < flips.net s tax) →
        (flips.analyze log10 s tax).tier = "GREEN")
    ∧ (0 ≤ flips.net s tax → flips.roi s tax ≤ 8 → flips.net s tax ≤ 200000 →
        (flips.analyze log10 s tax).tier = "NORMAL") := by
  rw [analyze_tier_of_ne_nil log10 s tax h]
  unfold flips.tier
  refine ⟨fun h1 => ?_, fun h0 hd => ?_, fun h0 hr hn hg => ?_,
    fun h0 hr hn hgr => ?_, fun h0 hr hn => ?_⟩ <;>
    split_ifs with c1 c2 c3 c4 <;>
    first
      | rfl
      | (exfalso; rcases hd with hd1 | hd2 <;> first | tauto | linarith)
      | (exfalso; rcases hg with hg1 | hg2 <;> first | tauto | linarith)
      | (exfalso; rcases hgr with hgr1 | hgr2 <;> first | tauto | linarith)
      | (exfalso;
          first
            | linarith
            | (rcases c2 with d1 | d2 <;> linarith)
            | (rcases c3 with d1 | d2 <;> linarith)
            | (rcases c4 with d1 | d2 <;> linarith)
            | tauto)


theorem use_recent_true {s : ItemStats}
    (h1 : (flips.price_crashed s || flips.price_spiked s) = true)
    (h2 : 10 ≤ s.recent_prices.length) : flips.use_recent s = true := by
  simp [flips.use_recent, h1, h2]

theorem use_recent_false {s : ItemStats}
    (hc : (flips.price_crashed s || flips.price_spiked s) = false
      ∨ s.recent_prices.length < 10) : flips.use_recent s = false := by
  rcases hc with hc | hc
  · simp [flips.use_recent, hc]
  · have hn : ¬ (s.recent_prices.length ≥ 10) := by omega
    simp [flips.use_recent, hn]

theorem use_filtered_true {s : ItemStats} (hur : flips.use_recent s = false)
    (hf : s.filtered_prices ≠ []) (ho : 0 < s.outliers_removed) :
    flips.use_filtered s = true := by
  simp [flips.use_filtered, hur, hf, ho]

theorem use_filtered_false {s : ItemStats}
    (hc : s.filtered_prices = [] ∨ s.outliers_removed = 0) :
    flips.use_filtered s = false := by
  rcases hc with hc | hc <;> simp [flips.use_filtered, hc]

/-- C4: on every non-empty input the working series is `recent_prices` when
(`price_crashed` or `price_spiked`) and `recent_prices` has at least 10
points — and then buy/sell are the rounded P15/P85 of that series —
otherwise `filtered_prices` when it is non-empty with `outliers_removed > 0`,
otherwise `all_prices`, and in both of the latter cases buy/sell are the
rounded P10/P90 of the chosen series (so with no crash/spike signal,
including any strictly increasing series, the Q10/Q90 band is used). -/
theorem C4_window_selection (log10 : ℚ → ℚ) (s : ItemStats) (tax : ℚ) (h : s.prices ≠ []) :
    ((flips.price_crashed s || flips.price_spiked s) = true → 10 ≤ s.recent_prices.length →
        flips.analysis_prices s = s.recent_prices
        ∧ (flips.analyze log10 s tax).buy
            = i32cast ((roundRat (flips.quantile (sortRat s.recent_prices) 0.15) : ℚ))
        ∧ (flips.analyze log10 s tax).sell
            = i32cast ((roundRat (flips.quantile (sortRat s.recent_prices) 0.85) : ℚ)))
    ∧ (((flips.price_crashed s || flips.price_spiked s) = false ∨ s.recent_prices.length < 10) →
        s.filtered_prices ≠ [] → 0 < s.outliers_removed →
        flips.analysis_prices s = s.filtered_prices
        ∧ (flips.analyze log10 s tax).buy
            = i32cast ((roundRat (flips.quantile (sortRat s.filtered_prices) 0.10) : ℚ))
        ∧ (flips.analyze log10 s tax).sell
            = i32cast ((roundRat (flips.quantile (sortRat s.filtered_prices) 0.90) : ℚ)))
    ∧ (((flips.price_crashed s || flips.price_spiked s) = false ∨ s.recent_prices.length < 10) →
        (s.filtered_prices = [] ∨ s.outliers_removed = 0) →
        flips.analysis_prices s = s.prices
        ∧ (flips.analyze log10 s tax).buy
            = i32cast ((roundRat (flips.quantile (sortRat s.prices) 0.10) : ℚ))
        ∧ (flips.analyze log10 s tax).sell
            = i32cast ((roundRat (flips.quantile (sortRat s.prices) 0.90) : ℚ))) := by
  refine ⟨?_, ?_, ?_⟩
  · intro h1 h2
    have hur := use_recent_true h1 h2
    have hap : flips.analysis_prices s = s.recent_prices := by
      simp [flips.analysis_prices, hur]
    refine ⟨hap, ?_, ?_⟩
    · rw [analyze_buy_of_ne_nil log10 s tax h]
      rw [flips.buy, if_pos hur, flips.sorted_prices, hap]
    · rw [analyze_sell_of_ne_nil log10 s tax h]
      rw [flips.sell, if_pos hur, flips.sorted_prices, hap]
  · intro hc hf ho
    have hur := use_recent_false hc
    have huf := use_filtered_true hur hf ho
    have hap : flips.analysis_prices s = s.filtered_prices := by
      simp [flips.analysis_prices, hur, huf]
    refine ⟨hap, ?_, ?_⟩
    · rw [analyze_buy_of_ne_nil log10 s tax h]
      rw [flips.buy, if_neg (by simp [hur]), flips.sorted_prices, hap]
    · rw [analyze_sell_of_ne_nil log10 s tax h]
      rw [flips.sell, if_neg (by simp [hur]), flips.sorted_prices, hap]
  · intro hc hfc
    have hur := use_recent_false hc
    have huf := use_filtered_false hfc
    have hap : flips.analysis_prices s = s.prices := by
      simp [flips.analysis_prices, hur, huf]
    refine ⟨hap, ?_, ?_⟩
    · rw [analyze_buy_of_ne_nil log10 s tax h]
      rw [flips.buy, if_neg (by simp [hur]), flips.sorted_prices, hap]
    · rw [analyze_sell_of_ne_nil log10 s tax h]
      rw [flips.sell, if_neg (by simp [hur]), flips.sorted_prices, hap]


theorem truncRat_nonneg {x : ℚ} (h : 0 ≤ x) : 0 ≤ truncRat x := by
  unfold truncRat
  rw [if_pos h]
  exact Int.le_floor.mpr (by push_cast; exact h)

theorem truncRat_le_intCast {x : ℚ} {c : ℤ} (h0 : 0 ≤ x) (h : x ≤ (c : ℚ)) :
    truncRat x ≤ c := by
  unfold truncRat
  rw [if_pos h0]
  calc Int.floor x ≤ Int.floor ((c : ℚ)) := Int.floor_mono h
    _ = c := Int.floor_intCast c

theorem truncRat_nonpos {x : ℚ} (h : x ≤ 0) : truncRat x ≤ 0 := by
  unfold truncRat
  split_ifs with hx
  · have hx0 : x = 0 := le_antisymm h hx
    simp [hx0]
  · exact Int.ceil_le.mpr (by push_cast; exact h)

theorem intCast_le_truncRat {x : ℚ} {c : ℤ} (h0 : x ≤ 0) (h : (c : ℚ) ≤ x) :
    c ≤ truncRat x := by
  unfold truncRat
  split_ifs with hx
  · have hx0 : x = 0 := le_antisymm h0 hx
    subst hx0
    simpa using Int.cast_nonpos.mp (by exact_mod_cast h)
  · calc c = Int.ceil ((c : ℚ)) := (Int.ceil_intCast c).symm
      _ ≤ Int.ceil x := Int.ceil_mono h

theorem truncRat_intCast (c : ℤ) : truncRat ((c : ℚ)) = c := by
  unfold truncRat
  split_ifs with h
  · exact Int.floor_intCast c
  · exact Int.ceil_intCast c

theorem i32min_le_i32cast (x : ℚ) : i32min ≤ i32cast x := le_max_left _ _

theorem i32cast_le_i32max (x : ℚ) : i32cast x ≤ i32max := by
  unfold i32cast
  apply max_le
  · norm_num [i32min, i32max]
  · exact min_le_left _ _

theorem i32cast_eq_of_bounds {x : ℚ} (h1 : i32min ≤ truncRat x) (h2 : truncRat x ≤ i32max) :
    i32cast x = truncRat x := by
  unfold i32cast
  rw [min_eq_right h2, max_eq_right h1]

theorem i32cast_bounds_of {x : ℚ} {lo hi : ℤ} (hlo : i32min ≤ lo) (hhi : hi ≤ i32max)
    (h1 : lo ≤ truncRat x) (h2 : truncRat x ≤ hi) : lo ≤ i32cast x ∧ i32cast x ≤ hi := by
  rw [i32cast_eq_of_bounds (le_trans hlo h1) (le_trans h2 hhi)]
  exact ⟨h1, h2⟩

theorem i32min_le_saturating_add (a b : Int) : i32min ≤ saturating_add a b :=
  le_max_left _ _

theorem saturating_add_le_i32max (a b : Int) : saturating_add a b ≤ i32max := by
  unfold saturating_add
  apply max_le
  · norm_num [i32min, i32max]
  · exact min_le_left _ _

theorem volume_score_bounds (log10 : ℚ → ℚ) (s : ItemStats) :
    0 ≤ flips.volume_score log10 s ∧ flips.volume_score log10 s ≤ 100 := by
  rw [flips.volume_score]
  split_ifs with hv
  · have h0 : (0:ℚ) ≤ min (max (log10 s.avg_volume * 15) 0) 100 :=
      le_min (le_max_right _ _) (by norm_num)
    have h100 : min (max (log10 s.avg_volume * 15) 0) 100 ≤ ((100 : ℤ) : ℚ) := by
      exact_mod_cast min_le_right _ _
    exact i32cast_bounds_of (by norm_num [i32min]) (by norm_num [i32max])
      (truncRat_nonneg h0) (truncRat_le_intCast h0 h100)
  · norm_num

theorem profit_score_bounds (s : ItemStats) (tax : ℚ) :
    -50 ≤ flips.profit_score s tax ∧ flips.profit_score s tax ≤ 50 := by
  rw [flips.profit_score]
  split_ifs with hn
  · have h0 : (0:ℚ) ≤ min (flips.net s tax / 100000) 50 :=
      le_min (le_of_lt (by positivity)) (by norm_num)
    have h50 : min (flips.net s tax / 100000) 50 ≤ ((50 : ℤ) : ℚ) := by
      exact_mod_cast min_le_right _ _
    have h1 : (0 : ℤ) ≤ truncRat (min (flips.net s tax / 100000) 50) := truncRat_nonneg h0
    have hb := i32cast_bounds_of (by norm_num [i32min]) (by norm_num [i32max]) h1
      (truncRat_le_intCast h0 h50)
    exact ⟨by linarith [hb.1], hb.2⟩
  · have hnle : flips.net s tax ≤ 0 := le_of_not_lt hn
    have hy0 : max (flips.net s tax / 100000) (-50) ≤ 0 :=
      max_le (div_nonpos_iff.mpr (Or.inr ⟨hnle, by norm_num⟩)) (by norm_num)
    have hy50 : ((-50 : ℤ) : ℚ) ≤ max (flips.net s tax / 100000) (-50) := by
      exact_mod_cast le_max_right _ _
    have h2 : truncRat (max (flips.net s tax / 100000) (-50)) ≤ (0 : ℤ) :=
      truncRat_nonpos hy0
    have hb := i32cast_bounds_of (by norm_num [i32min]) (by norm_num [i32max])
      (intCast_le_truncRat hy0 hy50) h2
    exact ⟨hb.1, by linarith [hb.2]⟩

/-- C7: on every non-empty input the score is the chain of `saturating_add`s
over the nine sub-scores; `roi_score` is clamped into the i32 range,
`volume_score` into [0,100] and `profit_score` into [-50,50] before the sum;
the final score stays inside the i32 range instead of wrapping; and an
extreme ROI such as `roi = 10^15` clamps `roi_score` to `i32::MAX`. -/
theorem C7_saturating_score (log10 : ℚ → ℚ) (s : ItemStats) (tax : ℚ) (h : s.prices ≠ []) :
    (flips.analyze log10 s tax).score =
      saturating_add (saturating_add (saturating_add (saturating_add (saturating_add
        (saturating_add (saturating_add (saturating_add
          (flips.roi_score s tax) (flips.volume_score log10 s))
          (flips.profit_score s tax)) (flips.volatility_score s))
          (flips.reliability_score s)) (flips.spread_penalty s))
          (flips.trend_score s)) (flips.outlier_penalty s)) (flips.crash_penalty s)
    ∧ i32min ≤ flips.roi_score s tax ∧ flips.roi_score s tax ≤ i32max
    ∧ 0 ≤ flips.volume_score log10 s ∧ flips.volume_score log10 s ≤ 100
    ∧ -50 ≤ flips.profit_score s tax ∧ flips.profit_score s tax ≤ 50
    ∧ i32min ≤ (flips.analyze log10 s tax).score
    ∧ (flips.analyze log10 s tax).score ≤ i32max
    ∧ (flips.roi s tax = 10 ^ 15 → flips.roi_score s tax = i32max) := by
  have hs := analyze_score_of_ne_nil log10 s tax h
  refine ⟨by rw [hs]; rfl, i32min_le_i32cast _, i32cast_le_i32max _,
    (volume_score_bounds log10 s).1, (volume_score_bounds log10 s).2,
    (profit_score_bounds s tax).1, (profit_score_bounds s tax).2,
    by rw [hs, flips.score]; exact i32min_le_saturating_add _ _,
    by rw [hs, flips.score]; exact saturating_add_le_i32max _ _, ?_⟩
  intro hroi
  rw [flips.roi_score, hroi]
  have hmax : max ((10:ℚ) ^ 15 * 2) ((i32min : Int) : ℚ) = (10:ℚ) ^ 15 * 2 := by
    apply max_eq_left
    norm_num [i32min]
  have hmin : min ((10:ℚ) ^ 15 * 2) ((i32max : Int) : ℚ) = ((i32max : Int) : ℚ) := by
    apply min_eq_right
    norm_num [i32max]
  rw [hmax, hmin]
  rw [i32cast_eq_of_bounds] <;> rw [truncRat_intCast] <;> norm_num [i32min, i32max]


/-- Modelled from the spec (§4.1 step 5): the index mean x̄ of the
least-squares regression of price against 0-based index. -/
def olsXbar (ys : List ℚ) : ℚ :=
  (((List.range ys.length).map (fun (i : ℕ) => (i : ℚ))).sum) / (ys.length : ℚ)

/-- Modelled from the spec (§4.1 step 5): the price mean ȳ. -/
def olsYbar (ys : List ℚ) : ℚ := ys.sum / (ys.length : ℚ)

/-- Modelled from the spec (§4.1 step 5): `Σ(x_i − x̄)(y_i − ȳ)`. -/
def olsNum (ys : List ℚ) : ℚ :=
  (((List.range ys.length).zip ys).map
    (fun p => ((p.1 : ℚ) - olsXbar ys) * (p.2 - olsYbar ys))).sum

/-- Modelled from the spec (§4.1 step 5): `Σ(x_i − x̄)²`. -/
def olsDen (ys : List ℚ) : ℚ :=
  (((List.range ys.length).zip ys).map
    (fun p => ((p.1 : ℚ) - olsXbar ys) * ((p.1 : ℚ) - olsXbar ys))).sum

/-- Modelled from the spec (§4.1 step 5): the ordinary least-squares slope
`Σ(x_i − x̄)(y_i − ȳ) / Σ(x_i − x̄)²`, 0 on a zero denominator. -/
def olsSlope (ys : List ℚ) : ℚ :=
  if olsDen ys = 0 then 0 else olsNum ys / olsDen ys

theorem foldl_add_eq (l : List (ℕ × ℚ)) (g : ℕ × ℚ → ℚ) (a : ℚ) :
    l.foldl (fun acc p => acc + g p) a = a + (l.map g).sum := by
  induction l generalizing a with
  | nil => simp
  | cons x xs ih => simp [ih, add_assoc]

theorem range_cast_sum (n : ℕ) :
    ((List.range n).map (fun (i : ℕ) => (i : ℚ))).sum = (n : ℚ) * ((n : ℚ) - 1) / 2 := by
  induction n with
  | zero => simp
  | succ m ih =>
    rw [List.range_succ]
    simp only [List.map_append, List.sum_append, ih, List.map_cons, List.map_nil,
      List.sum_cons, List.sum_nil]
    push_cast
    ring

theorem olsXbar_eq {ys : List ℚ} (h : ys ≠ []) :
    olsXbar ys = ((ys.length : ℚ) - 1) / 2 := by
  have hn : (ys.length : ℚ) ≠ 0 := by
    have := List.length_pos.mpr h
    positivity
  rw [olsXbar, range_cast_sum]
  field_simp
  ring

theorem calculate_trend_eq_olsSlope (ys : List ℚ) :
    stats.calculate_trend ys = olsSlope ys := by
  by_cases h2 : (ys.length : ℚ) < 2
  · have hcase : ys = [] ∨ ∃ a, ys = [a] := by
      rcases ys with _ | ⟨a, _ | ⟨b, t⟩⟩
      · exact Or.inl rfl
      · exact Or.inr ⟨a, rfl⟩
      · exfalso
        simp only [List.length_cons] at h2
        have : ((0:ℚ)) ≤ (t.length : ℚ) := by positivity
        push_cast at h2
        linarith
    rcases hcase with rfl | ⟨a, rfl⟩
    · have hL : stats.calculate_trend [] = 0 := by
        rw [stats.calculate_trend]
        norm_num
      have hR : olsSlope [] = 0 := by
        rw [olsSlope, if_pos]
        rw [olsDen]
        simp
      rw [hL, hR]
    · have hr1 : List.range 1 = [0] := by decide
      have hL : stats.calculate_trend [a] = 0 := by
        rw [stats.calculate_trend]
        norm_num
      have hR : olsSlope [a] = 0 := by
        have hxb : olsXbar [a] = 0 := by
          rw [olsXbar]
          rw [show ([a] : List ℚ).length = 1 from rfl, hr1]
          norm_num
        have hd : olsDen [a] = 0 := by
          rw [olsDen]
          rw [show ([a] : List ℚ).length = 1 from rfl, hr1]
          rw [show (([0] : List ℕ).zip [a]) = [(0, a)] from rfl]
          rw [hxb]
          norm_num
        rw [olsSlope, if_pos hd]
      rw [hL, hR]
  · have hne : ys ≠ [] := by
      intro hnil
      subst hnil
      norm_num at h2
    rw [stats.calculate_trend]
    rw [if_neg h2]
    rw [List.enum_eq_zip_range]
    dsimp only
    rw [foldl_add_eq ((List.range ys.length).zip ys)
      (fun p => ((p.1 : ℚ) - ((ys.length : ℚ) - 1) / 2) * (p.2 - ys.sum / (ys.length : ℚ))) 0]
    rw [foldl_add_eq ((List.range ys.length).zip ys)
      (fun p => ((p.1 : ℚ) - ((ys.length : ℚ) - 1) / 2) * ((p.1 : ℚ) - ((ys.length : ℚ) - 1) / 2)) 0]
    rw [olsSlope, olsNum, olsDen, olsXbar_eq hne]
    have hybar : olsYbar ys = ys.sum / (ys.length : ℚ) := rfl
    rw [hybar]
    by_cases hd :
        (((List.range ys.length).zip ys).map
          (fun p => ((p.1 : ℚ) - ((ys.length : ℚ) - 1) / 2) *
            ((p.1 : ℚ) - ((ys.length : ℚ) - 1) / 2))).sum = 0
    · rw [if_pos hd]
      simp [hd]
    · rw [if_neg hd]
      simp [hd]

theorem olsYbar_replicate (n : ℕ) (c : ℚ) (h : n ≠ 0) :
    olsYbar (List.replicate n c) = c := by
  have hn : ((n : ℚ)) ≠ 0 := by exact_mod_cast h
  rw [olsYbar, List.sum_replicate, List.length_replicate, nsmul_eq_mul]
  field_simp

theorem olsSlope_replicate (n : ℕ) (c : ℚ) : olsSlope (List.replicate n c) = 0 := by
  have hnum : olsNum (List.replicate n c) = 0 := by
    cases n with
    | zero => simp [olsNum]
    | succ m =>
      apply List.sum_eq_zero
      intro x hx
      simp only [List.mem_map] at hx
      obtain ⟨p, hp, rfl⟩ := hx
      have hp2 : p.2 = c := List.eq_of_mem_replicate (List.of_mem_zip hp).2
      rw [hp2, olsYbar_replicate (m + 1) c (Nat.succ_ne_zero m)]
      ring
  rw [olsSlope]
  split_ifs with hd
  · rfl
  · rw [hnum, zero_div]


theorem build_group_filtered (id : Int) (records : List ItemSnapshot) :
    (stats.build_stats_group id records).filtered_prices
      = (stats.remove_outliers (sortRat (records.map (fun x => (x.price : ℚ))))).1 := rfl

theorem build_group_outliers (id : Int) (records : List ItemSnapshot) :
    (stats.build_stats_group id records).outliers_removed
      = (stats.remove_outliers (sortRat (records.map (fun x => (x.price : ℚ))))).2 := rfl

theorem build_group_prices (id : Int) (records : List ItemSnapshot) :
    (stats.build_stats_group id records).prices
      = sortRat (records.map (fun x => (x.price : ℚ))) := rfl

theorem build_group_data_points (id : Int) (records : List ItemSnapshot) :
    (stats.build_stats_group id records).data_points
      = (stats.build_stats_group id records).prices.length := rfl

theorem build_group_price_trend (id : Int) (records : List ItemSnapshot) :
    (stats.build_stats_group id records).price_trend
      = (if (stats.build_stats_group id records).filtered_prices.length ≥ 3
          then stats.calculate_trend (stats.build_stats_group id records).filtered_prices
          else if (stats.build_stats_group id records).prices.length ≥ 3
            then stats.calculate_trend (stats.build_stats_group id records).prices
            else 0) := rfl

/-- C8: `price_trend` is the ordinary least-squares slope of price against
0-based index — the spec's `Σ(x−x̄)(y−ȳ)/Σ(x−x̄)²` with a zero denominator
yielding 0 — computed on `filtered_prices` when it has ≥ 3 points, else on
the (sorted) unfiltered price sequence when it has ≥ 3 points, else 0;
the slope of `[1,2,3,4,5]` is 1 and of every constant sequence 0. -/
theorem C8_price_trend_ols (id : Int) (records : List ItemSnapshot) :
    (3 ≤ (stats.build_stats_group id records).filtered_prices.length →
      (stats.build_stats_group id records).price_trend
        = olsSlope (stats.build_stats_group id records).filtered_prices)
    ∧ ((stats.build_stats_group id records).filtered_prices.length < 3 →
        3 ≤ (stats.build_stats_group id records).prices.length →
        (stats.build_stats_group id records).price_trend
          = olsSlope (stats.build_stats_group id records).prices)
    ∧ ((stats.build_stats_group id records).filtered_prices.length < 3 →
        (stats.build_stats_group id records).prices.length < 3 →
        (stats.build_stats_group id records).price_trend = 0)
    ∧ (∀ ys : List ℚ, olsDen ys = 0 → stats.calculate_trend ys = 0)
    ∧ stats.calculate_trend [1, 2, 3, 4, 5] = 1
    ∧ (∀ (n : ℕ) (c : ℚ), stats.calculate_trend (List.replicate n c) = 0) := by
  refine ⟨?_, ?_, ?_, ?_, ?_, ?_⟩
  · intro h3
    rw [build_group_price_trend, if_pos h3, calculate_trend_eq_olsSlope]
  · intro h3 h3p
    rw [build_group_price_trend, if_neg (by omega), if_pos h3p, calculate_trend_eq_olsSlope]
  · intro h3 h3p
    rw [build_group_price_trend, if_neg (by omega), if_neg (by omega)]
  · intro ys hd
    rw [calculate_trend_eq_olsSlope, olsSlope, if_pos hd]
  · rw [stats.calculate_trend]
    rw [show ([1, 2, 3, 4, 5] : List ℚ).enum
        = [(0, (1:ℚ)), (1, 2), (2, 3), (3, 4), (4, 5)] from rfl]
    norm_num [List.foldl_cons, List.foldl_nil]
  · intro n c
    rw [calculate_trend_eq_olsSlope]
    exact olsSlope_replicate n c


theorem sortRat_length (l : List ℚ) : (sortRat l).length = l.length :=
  @List.length_insertionSort ℚ (fun a b => a ≤ b) _ l

theorem sortRat_ne_nil {l : List ℚ} (h : l ≠ []) : sortRat l ≠ [] := by
  intro hnil
  apply h
  have := sortRat_length l
  rw [hnil] at this
  exact List.length_eq_zero.mp this.symm

theorem remove_outliers_cases (l : List ℚ) :
    stats.remove_outliers l = (l, 0)
    ∨ ∃ f : ℚ → Bool,
        stats.remove_outliers l = (l.filter f, l.length - (l.filter f).length)
        ∧ l.length * 7 / 10 ≤ (l.filter f).length ∧ 10 ≤ l.length := by
  rw [stats.remove_outliers]
  dsimp only
  split_ifs with h1 h2
  · exact Or.inl rfl
  · exact Or.inl rfl
  · exact Or.inr ⟨_, rfl, by omega, by omega⟩

theorem remove_outliers_length (l : List ℚ) :
    (stats.remove_outliers l).1.length + (stats.remove_outliers l).2 = l.length := by
  rcases remove_outliers_cases l with h | ⟨f, h, hge, h10⟩ <;> rw [h]
  · simp
  · have hle := List.length_filter_le f l
    simp only
    omega

theorem remove_outliers_ne_nil {l : List ℚ} (h : l ≠ []) :
    (stats.remove_outliers l).1 ≠ [] := by
  rcases remove_outliers_cases l with hc | ⟨f, hc, hge, h10⟩ <;> rw [hc]
  · exact h
  · simp only
    intro hnil
    rw [hnil] at hge
    simp only [List.length_nil] at hge
    omega

theorem build_group_recent (id : Int) (records : List ItemSnapshot) :
    (stats.build_stats_group id records).recent_prices
      = sortRat ((records.drop
          (if records.length ≥ 14 then records.length - 14 else 0)).map
            (fun x => (x.price : ℚ))) := rfl

/-- C9: every `ItemStats` built from a non-empty group satisfies:
`filtered_prices` is never the empty "not computed" sentinel;
`filtered_prices` length plus `outliers_removed` equals `data_points`;
`data_points` equals the length of the price series; and `recent_prices`
has exactly `min(data_points, 14)` elements. -/
theorem C9_build_stats_invariants (id : Int) (records : List ItemSnapshot)
    (h : records ≠ []) :
    (stats.build_stats_group id records).filtered_prices ≠ []
    ∧ (stats.build_stats_group id records).filtered_prices.length
        + (stats.build_stats_group id records).outliers_removed
        = (stats.build_stats_group id records).data_points
    ∧ (stats.build_stats_group id records).data_points
        = (stats.build_stats_group id records).prices.length
    ∧ (stats.build_stats_group id records).recent_prices.length
        = min (stats.build_stats_group id records).data_points 14 := by
  have hmap : records.map (fun x => (x.price : ℚ)) ≠ [] := by
    simp [h]
  have hsne := sortRat_ne_nil hmap
  refine ⟨?_, ?_, rfl, ?_⟩
  · rw [build_group_filtered]
    exact remove_outliers_ne_nil hsne
  · rw [build_group_filtered, build_group_outliers, build_group_data_points,
      build_group_prices, remove_outliers_length]
  · rw [build_group_recent, build_group_data_points, build_group_prices,
      sortRat_length, sortRat_length, List.length_map, List.length_map,
      List.length_drop]
    by_cases h14 : records.length ≥ 14 <;> simp [h14] <;> omega


/-- A group's chronologically first observation (price 5). -/
def earlySnap : ItemSnapshot :=
  { item_id := 1, name := "item", ge_limit := 0, record_date := "2024-01-01",
    price := 5, volume := 0 }

/-- The same group's chronologically last observation (price 3). -/
def lateSnap : ItemSnapshot :=
  { item_id := 1, name := "item", ge_limit := 0, record_date := "2024-01-02",
    price := 3, volume := 0 }

/-- C1 (divergence witnessed on the code): on a two-observation group whose
prices in chronological order are `[5, 3]`, `build_stats` sets
`current_price` to 5 — the last element of the price-sorted vector, i.e. the
maximum — while the chronologically most recent observation has price 3.
`prev_price` is taken from the unsorted `records`, so it is the
chronological second-most-recent price 5, as documented. -/
theorem C1_current_price_from_sorted_vector :
    (stats.build_stats_group 1 [earlySnap, lateSnap]).current_price = 5
    ∧ ([earlySnap, lateSnap].getLastD stats.defaultSnapshot).price = 3
    ∧ (stats.build_stats_group 1 [earlySnap, lateSnap]).prev_price = 5
    ∧ (5 : ℚ) ≠ 3 := by
  refine ⟨?_, by norm_num [earlySnap, lateSnap, stats.defaultSnapshot], ?_, by norm_num⟩
  · norm_num [stats.build_stats_group, sortRat, List.insertionSort, List.orderedInsert,
      earlySnap, lateSnap]
  · norm_num [stats.build_stats_group, earlySnap, lateSnap, stats.defaultSnapshot]

/-- C2 (divergence witnessed on the code): on the 11-point sorted series
`[1,1,10,10,10,10,10,10,10,99,99]` the IQR bounds degenerate to `[10,10]`,
so the in-bounds subset has 7 of 11 elements — fewer than
`ceil(0.7·11) = 8`, i.e. under 70% retained — yet `remove_outliers` keeps
the filtered list (with 4 removed) instead of reverting, because its Rust
threshold `original_len * 7 / 10` floors to 7. -/
theorem C2_outlier_revert_threshold_is_floor :
    stats.remove_outliers [1, 1, 10, 10, 10, 10, 10, 10, 10, 99, 99]
      = ([10, 10, 10, 10, 10, 10, 10], 4)
    ∧ ([10, 10, 10, 10, 10, 10, 10] : List ℚ).length <
        Nat.ceil ((7 : ℚ) / 10 * (([1, 1, 10, 10, 10, 10, 10, 10, 10, 99, 99] : List ℚ).length : ℚ)) := by
  constructor
  · norm_num [stats.remove_outliers, stats.quantile, roundRat]
    simp
    norm_num [List.filter_cons]
  · norm_num [Nat.lt_ceil]

/-- A concrete single-observation statistics record used to instantiate the
scorer theorems. -/
def sampleStats : ItemStats :=
  { item_id := 1, name := "sample", current_price := 100, prev_price := 100,
    avg_volume := 0, q10 := 100, q50 := 100, q90 := 100, data_points := 1,
    ge_limit := 0, current_volume := 0, prices := [100], price_trend := 0,
    filtered_prices := [], outliers_removed := 0, recent_prices := [],
    recent_prices_chrono := [] }

theorem quantile_single (a q : ℚ) : flips.quantile [a] q = a := by
  rw [flips.quantile]
  norm_num [roundRat]

theorem sample_use_recent : flips.use_recent sampleStats = false :=
  use_recent_false (Or.inr (by norm_num [sampleStats]))

theorem sample_use_filtered : flips.use_filtered sampleStats = false :=
  use_filtered_false (Or.inl rfl)

theorem sample_sorted : flips.sorted_prices sampleStats = [100] := by
  rw [flips.sorted_prices]
  have h : flips.analysis_prices sampleStats = [100] := by
    rw [flips.analysis_prices, if_neg (by simp [sample_use_recent]),
      if_neg (by simp [sample_use_filtered])]
    rfl
  rw [h]
  rfl

theorem sample_buy : flips.buy sampleStats = 100 := by
  rw [flips.buy, if_neg (by simp [sample_use_recent]), sample_sorted, quantile_single]
  norm_num [roundRat, i32cast, truncRat, i32min, i32max, min_def, max_def]

theorem sample_sell : flips.sell sampleStats = 100 := by
  rw [flips.sell, if_neg (by simp [sample_use_recent]), sample_sorted, quantile_single]
  norm_num [roundRat, i32cast, truncRat, i32min, i32max, min_def, max_def]

theorem sample_net (t : ℚ) : flips.net sampleStats t = -(100 * t) := by
  rw [flips.net, flips.gross, flips.tax_loss, sample_buy, sample_sell]
  norm_num

theorem sample_roi (t : ℚ) : flips.roi sampleStats t = -(100 * t) * 100 / 100 := by
  rw [flips.roi, if_pos (by rw [sample_buy]; norm_num), sample_net t, sample_buy]
  norm_num
  ring

/-- Witness for C3: on the sample input with zero tax, net = 0 and roi = 0,
so the NORMAL row of the table applies. -/
theorem C3_tier_priority_table_witness :
    sampleStats.prices ≠ []
    ∧ 0 ≤ flips.net sampleStats 0 ∧ flips.roi sampleStats 0 ≤ 8
    ∧ flips.net sampleStats 0 ≤ 200000
    ∧ (flips.analyze (fun _ => 0) sampleStats 0).tier = "NORMAL" :=
  ⟨by simp [sampleStats], by rw [sample_net]; norm_num, by rw [sample_roi]; norm_num,
    by rw [sample_net]; norm_num,
    (C3_tier_priority_table (fun _ => 0) sampleStats 0 (by simp [sampleStats])).2.2.2.2
      (by rw [sample_net]; norm_num) (by rw [sample_roi]; norm_num)
      (by rw [sample_net]; norm_num)⟩

/-- Witness for C4: the sample input has no crash/spike signal usable with a
10-point recent window and no filtering, so the all-prices Q10/Q90 branch
applies. -/
theorem C4_window_selection_witness :
    sampleStats.prices ≠ []
    ∧ sampleStats.recent_prices.length < 10
    ∧ sampleStats.filtered_prices = []
    ∧ (flips.analysis_prices sampleStats = sampleStats.prices
        ∧ (flips.analyze (fun _ => 0) sampleStats 0).buy
            = i32cast ((roundRat (flips.quantile (sortRat sampleStats.prices) 0.10) : ℚ))
        ∧ (flips.analyze (fun _ => 0) sampleStats 0).sell
            = i32cast ((roundRat (flips.quantile (sortRat sampleStats.prices) 0.90) : ℚ))) :=
  ⟨by simp [sampleStats], by norm_num [sampleStats], rfl,
    (C4_window_selection (fun _ => 0) sampleStats 0 (by simp [sampleStats])).2.2
      (Or.inr (by norm_num [sampleStats])) (Or.inl rfl)⟩

/-- Witness for C7: with tax −10¹³ the sample input's roi is 10¹⁵, and the
roi sub-score clamps to `i32::MAX`. -/
theorem C7_saturating_score_witness :
    sampleStats.prices ≠ []
    ∧ flips.roi sampleStats (-(10 ^ 13)) = 10 ^ 15
    ∧ flips.roi_score sampleStats (-(10 ^ 13)) = i32max :=
  ⟨by simp [sampleStats], by rw [sample_roi]; norm_num,
    (C7_saturating_score (fun _ => 0) sampleStats (-(10 ^ 13))
        (by simp [sampleStats])).2.2.2.2.2.2.2.2.2
      (by rw [sample_roi]; norm_num)⟩

/-- Three-observation group with prices 1, 2, 3 in date order. -/
def snapA : ItemSnapshot :=
  { item_id := 1, name := "g", ge_limit := 0, record_date := "2024-01-01",
    price := 1, volume := 10 }

/-- Second observation of the three-point group. -/
def snapB : ItemSnapshot :=
  { item_id := 1, name := "g", ge_limit := 0, record_date := "2024-01-02",
    price := 2, volume := 10 }

/-- Third observation of the three-point group. -/
def snapC : ItemSnapshot :=
  { item_id := 1, name := "g", ge_limit := 0, record_date := "2024-01-03",
    price := 3, volume := 10 }

theorem group3_filtered :
    (stats.build_stats_group 1 [snapA, snapB, snapC]).filtered_prices = [1, 2, 3] := by
  rw [build_group_filtered]
  have hs : sortRat ([snapA, snapB, snapC].map (fun x => (x.price : ℚ))) = [1, 2, 3] := by
    norm_num [snapA, snapB, snapC, sortRat, List.insertionSort, List.orderedInsert]
  rw [hs, stats.remove_outliers]
  norm_num

/-- Witness for C8: on the three-point group the filtered series has ≥ 3
points, so the trend is the least-squares slope of the filtered series. -/
theorem C8_price_trend_ols_witness :
    3 ≤ (stats.build_stats_group 1 [snapA, snapB, snapC]).filtered_prices.length
    ∧ (stats.build_stats_group 1 [snapA, snapB, snapC]).price_trend
        = olsSlope (stats.build_stats_group 1 [snapA, snapB, snapC]).filtered_prices :=
  ⟨by simp [group3_filtered],
    (C8_price_trend_ols 1 [snapA, snapB, snapC]).1 (by simp [group3_filtered])⟩

/-- Witness for C9: the invariants instantiated on the three-point group. -/
theorem C9_build_stats_invariants_witness :
    ([snapA, snapB, snapC] : List ItemSnapshot) ≠ []
    ∧ ((stats.build_stats_group 1 [snapA, snapB, snapC]).filtered_prices ≠ []
      ∧ (stats.build_stats_group 1 [snapA, snapB, snapC]).filtered_prices.length
          + (stats.build_stats_group 1 [snapA, snapB, snapC]).outliers_removed
          = (stats.build_stats_group 1 [snapA, snapB, snapC]).data_points
      ∧ (stats.build_stats_group 1 [snapA, snapB, snapC]).data_points
          = (stats.build_stats_group 1 [snapA, snapB, snapC]).prices.length
      ∧ (stats.build_stats_group 1 [snapA, snapB, snapC]).recent_prices.length
          = min (stats.build_stats_group 1 [snapA, snapB, snapC]).data_points 14) :=
  ⟨by simp, C9_build_stats_invariants 1 [snapA, snapB, snapC] (by simp)⟩

/-- Witness for C10: the universally quantified clauses instantiated on the
sample input. -/
theorem C10_sentinel_distinguishable_by_tier_witness :
    sampleStats.prices ≠ []
    ∧ ((flips.analyze (fun _ => 0) sampleStats 0).qty = 1
        ∧ (flips.analyze (fun _ => 0) sampleStats 0).tier
            ∈ ["CRASH", "NORMAL", "GREEN", "GOLD", "DIAMOND"])
    ∧ ((flips.analyze (fun _ => 0) sampleStats 0).tier = "NONE" ↔ sampleStats.prices = []) :=
  ⟨by simp [sampleStats],
    C10_sentinel_distinguishable_by_tier.2.2.2.2.2.2.2.1 (fun _ => 0) sampleStats 0
      (by simp [sampleStats]),
    C10_sentinel_distinguishable_by_tier.2.2.2.2.2.2.2.2 (fun _ => 0) sampleStats 0⟩


end RS3
